import Mathlib

set_option linter.unusedVariables false

/-!
Shallow embedding of the two IPC client modules of the repository:
the buffer handle relay client (`modules/sharebuffer/sharebuffer.cpp`)
and the sensor polling client (`modules/sfdroid_sensors/sfdroid_sensors.c`).

Socket system calls (socket/connect/setsockopt/send/recv) are modelled by
explicit environments recording whether each call succeeds and what bytes
the peer delivers; the functions below are translated control-flow–faithfully
from the C sources.  Byte values are `Int` in the range of C `char`
(ASCII: 'O' = 79, 'K' = 75, 'F' = 70, 'A' = 65) where signedness matters,
`Nat` 0..255 for raw received bytes.  Multi-byte struct fields are modelled
at `int`-granularity (every field copied by `send_native_handle` is a 4-byte
word), so a message is a `List Int` of words.
-/

namespace Sharebuffer

/-- Environment for `connect_to_renderer` / `connect_to_sfdroid`: whether
`socket`, `connect`, and `setsockopt` succeed. -/
structure ConnectEnv where
  socketOk : Bool
  connectOk : Bool
  setsockoptOk : Bool
deriving DecidableEq

/-- A connected channel as the clients observe it: the only attribute the
claims depend on is the receive timeout installed at connect time
(`none` = no SO_RCVTIMEO set, i.e. blocking reads are unbounded). -/
structure Channel where
  rcvTimeoutSec : Option Nat
deriving DecidableEq

/-- `connect_to_renderer` (sharebuffer.cpp:54-78): socket, connect, return fd.
The source performs no `setsockopt` at all on this channel, so a successful
connect returns a channel with no receive timeout. -/
def connect_to_renderer (env : ConnectEnv) : Option Channel :=
  if env.socketOk then
    if env.connectOk then some ⟨none⟩ else none
  else none

/-- `connect_to_sfdroid` (sfdroid_sensors.c:34-74): socket, connect, then
`setsockopt(SO_RCVTIMEO, {1 s})`.  A failing `setsockopt` is only logged and
the fd is still returned (then with no timeout installed). -/
def connect_to_sfdroid (env : ConnectEnv) : Option Channel :=
  if env.socketOk then
    if env.connectOk then
      if env.setsockoptOk then some ⟨some 1⟩ else some ⟨none⟩
    else none
  else none

/-- The four fields of `struct buffer_info_t` (sharebuffer.cpp:46-52). -/
structure BufferInfo where
  width : Nat
  height : Nat
  stride : Nat
  pixel_format : Int
deriving DecidableEq

/-- A `native_handle_t`: header words `version`, `numFds`, `numInts`, then a
data array of `numFds + numInts` ints, the first `numFds` of which are the
transferable descriptors. -/
structure NativeHandle where
  version : Int
  numFds : Nat
  numInts : Nat
  data : List Int
deriving DecidableEq

/-- The `buffer_info_t` words copied first into `message_buffer`
(sharebuffer.cpp:96). -/
def bufferInfoWords (info : BufferInfo) : List Int :=
  [(info.width : Int), (info.height : Int), (info.stride : Int), info.pixel_format]

/-- The words of the whole handle as copied by
`memcpy(message_buffer + sizeof(buffer_info_t), handle, handle_size)`
(sharebuffer.cpp:97): header words followed by the complete `data` array
(`handle_size = sizeof(native_handle_t) + sizeof(int)*(numFds + numInts)`). -/
def handleWords (h : NativeHandle) : List Int :=
  [h.version, (h.numFds : Int), (h.numInts : Int)] ++ h.data

/-- The inline bytes (as words) of the single message sent by
`send_native_handle` (sharebuffer.cpp:80-122). -/
def send_native_handle_msg (info : BufferInfo) (h : NativeHandle) : List Int :=
  bufferInfoWords info ++ handleWords h

/-- The descriptors attached as SCM_RIGHTS ancillary data by
`send_native_handle` (sharebuffer.cpp:116-119): the first `numFds` entries of
the handle's data array. -/
def send_native_handle_anc (h : NativeHandle) : List Int :=
  h.data.take h.numFds

/-- Modelled from the spec (§4.4 step 2 / §6): the outbound message layout the
spec describes — descriptor fields, handle header, then only the `numInts`
plain integer values, with the descriptors *not* appearing as inline bytes.
Stated for comparison with `send_native_handle_msg`. -/
def spec_relay_msg (info : BufferInfo) (h : NativeHandle) : List Int :=
  bufferInfoWords info ++ [h.version, (h.numFds : Int), (h.numInts : Int)] ++
    h.data.drop h.numFds

/-- Observable result of `recv_status` (sharebuffer.cpp:124-156): the return
value, the `*failed` out-parameter (`none` models "left unwritten", carrying
through the caller's previous/uninitialized value), and which diagnostics were
logged. -/
structure RecvStatusOut where
  ret : Int
  failed : Option Int
  loggedUnknown : Bool
  loggedBadTerm : Bool
deriving DecidableEq

/-- `recv_status(fd, &failed)` (sharebuffer.cpp:124-156).  `reply = none`
models `recv(..., 3, MSG_WAITALL) < 0`; otherwise the three received bytes.
`strcmp(message_buffer, "OK") == 0` iff the bytes are 'O','K' (terminator
already checked); likewise for "FA". -/
def recv_status (reply : Option (Int × Int × Int)) (failed0 : Option Int) :
    RecvStatusOut :=
  match reply with
  | none => ⟨-1, failed0, false, false⟩
  | some (b0, b1, b2) =>
    if b2 ≠ 0 then ⟨-1, failed0, false, true⟩
    else if b0 = 79 ∧ b1 = 75 then ⟨0, some 0, false, false⟩
    else if b0 = 70 ∧ b1 = 65 then ⟨-1, some 1, false, false⟩
    else ⟨-1, some 1, true, false⟩

/-- Diagnostics emitted on the relay path in `fb_post` /
`connect_to_renderer`. -/
inductive RelayLog where
  | connectingWarn
  | connectError
  | sendFailWarn
  | recvFailWarn
deriving DecidableEq

/-- Environment for one `fb_post` call: whether a connect attempt (if made)
succeeds, whether `sendmsg` succeeds, and the 3 status bytes delivered by the
peer (`none` = recv error). -/
structure RelayEnv where
  connectOk : Bool
  sendOk : Bool
  reply : Option (Int × Int × Int)
deriving DecidableEq

/-- Observable outcome of one `fb_post` call. -/
structure FbPostOut where
  ret : Int
  connected : Bool
  sendAttempted : Bool
  connectAttempted : Bool
  logs : List RelayLog
deriving DecidableEq

/-- `fb_post` (sharebuffer.cpp:212-249).  `connected0` is whether
`m->fd_renderer >= 0` on entry.  If disconnected, a reconnect is attempted
(logging a warning, and `connect_to_renderer` logs an error on failure).  If
still disconnected the call returns 0 with nothing sent.  Otherwise the
handle is sent; a failed send or a failed/rejected status reply jumps to
`exit_error`, which closes the fd and returns -1.  The `failed` variable in
the source is uninitialized and never read, modelled by passing `none`. -/
def fb_post (connected0 : Bool) (env : RelayEnv) : FbPostOut :=
  let connLogs : List RelayLog :=
    if connected0 then []
    else if env.connectOk then [RelayLog.connectingWarn]
    else [RelayLog.connectingWarn, RelayLog.connectError]
  if connected0 || env.connectOk then
    if env.sendOk then
      if (recv_status env.reply none).ret < 0 then
        ⟨-1, false, true, !connected0, connLogs ++ [RelayLog.recvFailWarn]⟩
      else
        ⟨0, true, true, !connected0, connLogs⟩
    else
      ⟨-1, false, true, !connected0, connLogs ++ [RelayLog.sendFailWarn]⟩
  else
    ⟨0, false, false, !connected0, connLogs⟩

end Sharebuffer

namespace SfdroidSensors

/-- The acceleration sensor id: `ID_BASE + 0` with
`ID_BASE = SENSORS_HANDLE_BASE = 0` (platform header `hardware/sensors.h`);
the other four reserved ids are 1..4. -/
def ID_ACCELERATION : Int := 0

/-- Environment for one `poll__activate` / `poll__setDelay` call. -/
structure CmdEnv where
  connectOk : Bool
  sendSyncOk : Bool
  sendCmdOk : Bool
deriving DecidableEq

/-- Observable outcome of `poll__activate` / `poll__setDelay`: return value,
channel state after the call, whether a `connect_to_sfdroid` attempt was
made, and how many `send` system calls were issued. -/
structure CmdOut where
  ret : Int
  connected : Bool
  connectAttempted : Bool
  sendCalls : Nat
deriving DecidableEq

/-- `poll__activate` (sfdroid_sensors.c:253-295).  Note the connect attempt at
the top happens before the `handle == ID_ACCELERATION` check; for a
non-acceleration handle, the function then returns -1 without sending. -/
def poll__activate (env : CmdEnv) (fd0 : Bool) (handle : Int) (enabled : Bool) :
    CmdOut :=
  let fd1 := fd0 || env.connectOk
  if handle = ID_ACCELERATION then
    if fd1 then
      if env.sendSyncOk then
        if env.sendCmdOk then ⟨0, true, !fd0, 2⟩
        else ⟨-1, false, !fd0, 2⟩
      else ⟨-1, false, !fd0, 1⟩
    else ⟨0, false, !fd0, 0⟩
  else ⟨-1, fd1, !fd0, 0⟩

/-- `poll__setDelay` (sfdroid_sensors.c:297-341): same shape as
`poll__activate`, except `ctl->delay = ns` is stored unconditionally before
the handle check; the second component is the stored delay after the call. -/
def poll__setDelay (env : CmdEnv) (fd0 : Bool) (delay0 : Int) (handle : Int)
    (ns : Int) : CmdOut × Int :=
  let fd1 := fd0 || env.connectOk
  let out : CmdOut :=
    if handle = ID_ACCELERATION then
      if fd1 then
        if env.sendSyncOk then
          if env.sendCmdOk then ⟨0, true, !fd0, 2⟩
          else ⟨-1, false, !fd0, 2⟩
        else ⟨-1, false, !fd0, 1⟩
      else ⟨0, false, !fd0, 0⟩
    else ⟨-1, fd1, !fd0, 0⟩
  (out, ns)

/-- Environment for one iteration of the `poll__poll` loop
(sfdroid_sensors.c:184-244): whether the two `send` calls succeed, the result
of the 1-byte length-prefix `recv` (`none` = error, `some b` = the raw byte
0..255), and the payload bytes the second `recv` delivers (`none` = error;
the delivered list may be shorter than the announced prefix — the source
never compares the two). -/
structure IterEnv where
  sendSyncOk : Bool
  sendCmdOk : Bool
  prefixByte : Option Nat
  payload : Option (List Nat)
deriving DecidableEq

/-- Outcome of one loop iteration of `poll__poll`. -/
inductive StepRes (α : Type) where
  | fail
  | stop
  | event (ev : α)
deriving DecidableEq

/-- One iteration of the `poll__poll` body (sfdroid_sensors.c:184-244):
send the sync byte, send `get:accelerometer`, recv the prefix byte, recv the
payload, `buff[len] = 0`, then `sscanf` against
`acceleration:%g:%g:%g:%lld` (modelled by the abstract `parse`, applied to
the bytes actually received, whatever their count).  A negative send/recv
closes the fd and returns early (`fail`); an unparseable reply returns early
with the fd left open (`stop`); a parse success yields one event. -/
def iterStep {α : Type} (parse : List Nat → Option α) (e : IterEnv) : StepRes α :=
  if e.sendSyncOk then
    if e.sendCmdOk then
      match e.prefixByte with
      | some _ =>
        match e.payload with
        | some l =>
          match parse l with
          | some ev => StepRes.event ev
          | none => StepRes.stop
        | none => StepRes.fail
      | none => StepRes.fail
    else StepRes.fail
  else StepRes.fail

/-- Result of a whole `poll__poll` call: the C return value, the event
records written out, and whether `ctl->fd` is still valid afterwards. -/
structure PollOut (α : Type) where
  ret : Int
  events : List α
  connected : Bool
deriving DecidableEq

/-- The `for (i = 0; i < count; i++)` loop of `poll__poll`
(sfdroid_sensors.c:184-246): `i` is the loop counter, the fuel is the number
of remaining iterations, `acc` the events produced so far.  When the loop
runs to completion the source returns `count`. -/
def pollLoop {α : Type} (parse : List Nat → Option α) (env : Nat → IterEnv)
    (count : Int) : Nat → Nat → List α → PollOut α
  | _, 0, acc => ⟨count, acc, true⟩
  | i, fuel + 1, acc =>
    match iterStep parse (env i) with
    | StepRes.fail => ⟨(i : Int), acc, false⟩
    | StepRes.stop => ⟨(i : Int), acc, true⟩
    | StepRes.event ev => pollLoop parse env count (i + 1) fuel (acc ++ [ev])

/-- `poll__poll` (sfdroid_sensors.c:168-251).  If `ctl->fd < 0`, a
`connect_to_sfdroid` attempt is made first (its success is `connectOk`); if
the fd is still invalid the call returns 0 with no events.  Otherwise the
loop runs for up to `count` iterations (for `count ≤ 0` the loop body never
runs and the source returns `count`). -/
def poll_model {α : Type} (parse : List Nat → Option α) (env : Nat → IterEnv)
    (connectOk : Bool) (fd0 : Bool) (count : Int) : PollOut α :=
  if fd0 || connectOk then pollLoop parse env count 0 count.toNat []
  else ⟨0, [], false⟩

/-- An iteration whose sends and recvs succeed and whose payload parses. -/
def iterOk {α : Type} (parse : List Nat → Option α) (e : IterEnv) : Bool :=
  match iterStep parse e with
  | StepRes.event _ => true
  | _ => false

/-- An iteration whose sends and recvs succeed but whose payload fails the
acceleration parse. -/
def iterParseFail {α : Type} (parse : List Nat → Option α) (e : IterEnv) : Bool :=
  match iterStep parse e with
  | StepRes.stop => true
  | _ => false

/-- The value of the received length-prefix byte after being stored in the
`char syncbuf[1]` (signed on the reference ABI): bytes ≥ 128 become
negative. -/
def signedCharOfByte (b : Nat) : Int :=
  if b < 128 then (b : Int) else (b : Int) - 256

/-- The byte count `poll__poll` requests from `recv(ctl->fd, buff,
syncbuf[0], 0)` (sfdroid_sensors.c:220): the signed char value converted to
the unsigned 64-bit `size_t` parameter of `recv`. -/
def recvRequestBytes (b : Nat) : Nat :=
  ((signedCharOfByte b) % (2 ^ 64 : Int)).toNat

/-- Size of the `char buff[256]` reply buffer (sfdroid_sensors.c:172). -/
def REPLY_BUF_SIZE : Nat := 256

end SfdroidSensors

open Sharebuffer SfdroidSensors in
/-- Helper: `iterParseFail` holds exactly when the iteration outcome is
`stop`. -/
theorem iterParseFail_iff {α : Type} (parse : List Nat → Option α)
    (e : SfdroidSensors.IterEnv) :
    SfdroidSensors.iterParseFail parse e = true ↔
      SfdroidSensors.iterStep parse e = SfdroidSensors.StepRes.stop := by
  unfold SfdroidSensors.iterParseFail
  cases hstep : SfdroidSensors.iterStep parse e <;> simp [hstep]

/-- Helper: `iterOk` holds exactly when the iteration outcome is an event. -/
theorem iterOk_iff {α : Type} (parse : List Nat → Option α)
    (e : SfdroidSensors.IterEnv) :
    SfdroidSensors.iterOk parse e = true ↔
      ∃ ev, SfdroidSensors.iterStep parse e = SfdroidSensors.StepRes.event ev := by
  unfold SfdroidSensors.iterOk
  cases hstep : SfdroidSensors.iterStep parse e <;> simp [hstep]

/-- Helper: the loop's return value always equals the number of event records
produced, and that number never exceeds `count.toNat`. -/
theorem pollLoop_ret_eq_len {α : Type} (parse : List Nat → Option α)
    (env : Nat → SfdroidSensors.IterEnv) (count : Int) (hc : 0 ≤ count) :
    ∀ fuel i acc, acc.length = i → i + fuel = count.toNat →
      (SfdroidSensors.pollLoop parse env count i fuel acc).ret =
        ((SfdroidSensors.pollLoop parse env count i fuel acc).events.length : Int) ∧
      (SfdroidSensors.pollLoop parse env count i fuel acc).events.length ≤
        count.toNat := by
  intro fuel
  induction fuel with
  | zero =>
    intro i acc hlen hsum
    simp only [SfdroidSensors.pollLoop]
    constructor
    · omega
    · omega
  | succ n ih =>
    intro i acc hlen hsum
    cases hstep : SfdroidSensors.iterStep parse (env i) with
    | fail =>
      simp only [SfdroidSensors.pollLoop, hstep]
      constructor
      · omega
      · omega
    | stop =>
      simp only [SfdroidSensors.pollLoop, hstep]
      constructor
      · omega
      · omega
    | event ev =>
      have hrec := ih (i + 1) (acc ++ [ev]) (by simp [hlen]) (by omega)
      simpa only [SfdroidSensors.pollLoop, hstep] using hrec

/-- Helper: if iterations `i, …, k-1` all produce events and iteration `k`
fails the parse, the loop stops at `k` with the channel still open. -/
theorem pollLoop_early_stop {α : Type} (parse : List Nat → Option α)
    (env : Nat → SfdroidSensors.IterEnv) (count : Int) (k : Nat) :
    ∀ fuel i acc, acc.length = i → i + fuel = count.toNat → i ≤ k →
      k < count.toNat →
      (∀ j, i ≤ j → j < k → SfdroidSensors.iterOk parse (env j) = true) →
      SfdroidSensors.iterParseFail parse (env k) = true →
      (SfdroidSensors.pollLoop parse env count i fuel acc).ret = (k : Int) ∧
      (SfdroidSensors.pollLoop parse env count i fuel acc).events.length = k ∧
      (SfdroidSensors.pollLoop parse env count i fuel acc).connected = true := by
  intro fuel
  induction fuel with
  | zero =>
    intro i acc hlen hsum hik hk hall hpf
    exfalso
    omega
  | succ n ih =>
    intro i acc hlen hsum hik hk hall hpf
    rcases Nat.eq_or_lt_of_le hik with heq | hlt
    · have hstep := (iterParseFail_iff parse (env k)).mp hpf
      rw [← heq] at hstep
      simp only [SfdroidSensors.pollLoop, hstep]
      refine ⟨by omega, by omega, by trivial⟩
    · obtain ⟨ev, hstep⟩ := (iterOk_iff parse (env i)).mp (hall i (le_refl i) hlt)
      have hrec := ih (i + 1) (acc ++ [ev]) (by simp [hlen]) (by omega) hlt hk
        (fun j hj1 hj2 => hall j (by omega) hj2) hpf
      simpa only [SfdroidSensors.pollLoop, hstep] using hrec

/-- C1 counterexample: after a complete, well-terminated "FA" reply, the
relay channel does **not** remain open — `fb_post` closes and invalidates
it, unlike after an "OK" reply. -/
theorem c1_fa_closes_channel_counterexample :
    (Sharebuffer.fb_post true ⟨true, true, some (70, 65, 0)⟩).connected = false ∧
    (Sharebuffer.fb_post true ⟨true, true, some (79, 75, 0)⟩).connected = true := by
  decide

/-- C1 (amended): a "FA" status reply is handled like any reply failure:
`recv_status` returns -1 for it, so `fb_post` jumps to `exit_error`, closes
the relay channel, and returns -1; only an "OK" reply leaves the channel
open. -/
theorem c1_fa_reply_invalidates_channel (connected0 : Bool)
    (env : Sharebuffer.RelayEnv) (hup : (connected0 || env.connectOk) = true)
    (hsend : env.sendOk = true) (hfa : env.reply = some (70, 65, 0)) :
    (Sharebuffer.fb_post connected0 env).ret = -1 ∧
    (Sharebuffer.fb_post connected0 env).connected = false := by
  simp [Sharebuffer.fb_post, hup, hsend, hfa, Sharebuffer.recv_status]

/-- Witness for C1's amended theorem at a concrete input. -/
theorem c1_fa_reply_invalidates_channel_witness :
    (Sharebuffer.fb_post true ⟨true, true, some (70, 65, 0)⟩).ret = -1 ∧
    (Sharebuffer.fb_post true ⟨true, true, some (70, 65, 0)⟩).connected = false :=
  c1_fa_reply_invalidates_channel true ⟨true, true, some (70, 65, 0)⟩ rfl rfl rfl

/-- C2 counterexample: a fully successful `connect_to_renderer` returns a
channel with **no** receive timeout installed (the source never calls
`setsockopt` on the relay socket), contradicting "on both … channels". -/
theorem c2_renderer_no_timeout_counterexample :
    Sharebuffer.connect_to_renderer ⟨true, true, true⟩ = some ⟨none⟩ ∧
    Sharebuffer.connect_to_renderer ⟨true, true, true⟩ ≠ some ⟨some 1⟩ := by
  decide

/-- C2 (amended): only the sensor channel's connect installs the 1-second
receive timeout (when its `setsockopt` succeeds); the buffer relay connect
installs none, so `present()` has no receive-timeout bound from connect. -/
theorem c2_timeout_only_on_sensor_channel (env : Sharebuffer.ConnectEnv)
    (hs : env.socketOk = true) (hc : env.connectOk = true)
    (ho : env.setsockoptOk = true) :
    Sharebuffer.connect_to_sfdroid env = some ⟨some 1⟩ ∧
    Sharebuffer.connect_to_renderer env = some ⟨none⟩ := by
  simp [Sharebuffer.connect_to_sfdroid, Sharebuffer.connect_to_renderer, hs, hc, ho]

/-- Witness for C2's amended theorem at a concrete input. -/
theorem c2_timeout_only_on_sensor_channel_witness :
    Sharebuffer.connect_to_sfdroid ⟨true, true, true⟩ = some ⟨some 1⟩ ∧
    Sharebuffer.connect_to_renderer ⟨true, true, true⟩ = some ⟨none⟩ :=
  c2_timeout_only_on_sensor_channel ⟨true, true, true⟩ rfl rfl rfl

/-- C3 counterexample: the reply {'F','A',0} and the unrecognized but
well-terminated reply {'X','X',0} produce identical observable results at
the caller (same return value, same `*failed`), so "PeerRejected" and an
unrecognized code are not mutually distinguishable outcomes. -/
theorem c3_fa_indistinguishable_counterexample :
    (Sharebuffer.recv_status (some (70, 65, 0)) none).ret =
      (Sharebuffer.recv_status (some (88, 88, 0)) none).ret ∧
    (Sharebuffer.recv_status (some (70, 65, 0)) none).failed =
      (Sharebuffer.recv_status (some (88, 88, 0)) none).failed := by
  decide

/-- C3 (amended): exactly {'O','K',0} yields success (return 0, failed = 0);
{'F','A',0} and every other well-terminated reply yield the same caller-visible
failure (return -1, failed = 1), the unrecognized code differing only in a
diagnostic log; a third byte ≠ 0 yields return -1 with `failed` left
unwritten. -/
theorem c3_status_reply_outcomes (b0 b1 b2 : Int) (f0 : Option Int) :
    ((Sharebuffer.recv_status (some (79, 75, 0)) f0).ret = 0 ∧
      (Sharebuffer.recv_status (some (79, 75, 0)) f0).failed = some 0) ∧
    (b2 = 0 → ¬(b0 = 79 ∧ b1 = 75) →
      (Sharebuffer.recv_status (some (b0, b1, b2)) f0).ret = -1 ∧
      (Sharebuffer.recv_status (some (b0, b1, b2)) f0).failed = some 1) ∧
    (b2 ≠ 0 →
      (Sharebuffer.recv_status (some (b0, b1, b2)) f0).ret = -1 ∧
      (Sharebuffer.recv_status (some (b0, b1, b2)) f0).failed = f0) ∧
    (Sharebuffer.recv_status (some (70, 65, 0)) f0).loggedUnknown = false ∧
    (b2 = 0 → ¬(b0 = 79 ∧ b1 = 75) → ¬(b0 = 70 ∧ b1 = 65) →
      (Sharebuffer.recv_status (some (b0, b1, b2)) f0).loggedUnknown = true) := by
  refine ⟨by simp [Sharebuffer.recv_status], ?_, ?_, by simp [Sharebuffer.recv_status], ?_⟩
  · intro h2 hno
    by_cases hfa : b0 = 70 ∧ b1 = 65 <;>
      simp [Sharebuffer.recv_status, h2, hno, hfa]
  · intro h2
    simp [Sharebuffer.recv_status, h2]
  · intro h2 hno hnf
    simp [Sharebuffer.recv_status, h2, hno, hnf]

/-- Witness for C3's amended theorem at a concrete input. -/
theorem c3_status_reply_outcomes_witness :
    (Sharebuffer.recv_status (some (88, 88, 0)) none).ret = -1 ∧
    (Sharebuffer.recv_status (some (88, 88, 0)) none).failed = some 1 :=
  (c3_status_reply_outcomes 88 88 0 none).2.1 rfl (by decide)

/-- C4 counterexample: for a handle with numFds = 1, numInts = 0 and
descriptor value 5, the message built by `send_native_handle` differs from
the layout the claim describes — the descriptor slot appears inline. -/
theorem c4_inline_fds_counterexample :
    Sharebuffer.send_native_handle_msg ⟨4, 4, 4, 1⟩ ⟨1, 1, 0, [5]⟩ ≠
      Sharebuffer.spec_relay_msg ⟨4, 4, 4, 1⟩ ⟨1, 1, 0, [5]⟩ := by
  decide

/-- C4 (amended): the single outbound message contains, back-to-back, the
four descriptor fields, the handle's header words, then the `numFds`
descriptor slots inline (as raw int values) followed by the `numInts` plain
integers; the descriptors are additionally carried as ancillary data, and
only for numFds = 0 does the message match the claimed inline layout. -/
theorem c4_msg_layout (info : Sharebuffer.BufferInfo)
    (h : Sharebuffer.NativeHandle) :
    Sharebuffer.send_native_handle_msg info h =
      Sharebuffer.bufferInfoWords info ++
        [h.version, (h.numFds : Int), (h.numInts : Int)] ++
        h.data.take h.numFds ++ h.data.drop h.numFds ∧
    Sharebuffer.send_native_handle_anc h = h.data.take h.numFds ∧
    (h.numFds = 0 →
      Sharebuffer.send_native_handle_msg info h =
        Sharebuffer.spec_relay_msg info h) := by
  refine ⟨?_, rfl, ?_⟩
  · simp [Sharebuffer.send_native_handle_msg, Sharebuffer.handleWords,
      List.append_assoc, List.take_append_drop]
  · intro h0
    simp [Sharebuffer.send_native_handle_msg, Sharebuffer.spec_relay_msg,
      Sharebuffer.handleWords, h0]

/-- Witness for C4's amended theorem at a concrete input. -/
theorem c4_msg_layout_witness :
    Sharebuffer.send_native_handle_msg ⟨4, 4, 4, 1⟩ ⟨1, 0, 1, [7]⟩ =
      Sharebuffer.spec_relay_msg ⟨4, 4, 4, 1⟩ ⟨1, 0, 1, [7]⟩ :=
  (c4_msg_layout ⟨4, 4, 4, 1⟩ ⟨1, 0, 1, [7]⟩).2.2 rfl

/-- C5 counterexample: `poll__activate` on a disconnected channel with a
non-acceleration kind (magnetic-field, id 1) **does** make a connect attempt
before rejecting the kind, contradicting "no socket operation whatsoever". -/
theorem c5_connect_attempt_counterexample :
    (SfdroidSensors.poll__activate ⟨true, true, true⟩ false 1 true).connectAttempted
        = true ∧
    (SfdroidSensors.poll__activate ⟨true, true, true⟩ false 1 true).ret = -1 := by
  decide

/-- C5 (amended): for every kind other than acceleration, `activate` and
`setDelay` deterministically return the unsupported-sensor error (-1) and
issue no send, but when the channel is disconnected they first attempt a
connect; `setDelay` also stores the new delay unconditionally. -/
theorem c5_non_accel_rejected (env : SfdroidSensors.CmdEnv) (fd0 : Bool)
    (handle : Int) (enabled : Bool) (delay0 ns : Int)
    (hk : handle ≠ SfdroidSensors.ID_ACCELERATION) :
    (SfdroidSensors.poll__activate env fd0 handle enabled).ret = -1 ∧
    (SfdroidSensors.poll__activate env fd0 handle enabled).sendCalls = 0 ∧
    (SfdroidSensors.poll__activate env fd0 handle enabled).connectAttempted = !fd0 ∧
    (SfdroidSensors.poll__setDelay env fd0 delay0 handle ns).1.ret = -1 ∧
    (SfdroidSensors.poll__setDelay env fd0 delay0 handle ns).1.sendCalls = 0 ∧
    (SfdroidSensors.poll__setDelay env fd0 delay0 handle ns).2 = ns := by
  simp [SfdroidSensors.poll__activate, SfdroidSensors.poll__setDelay, hk]

/-- Witness for C5's amended theorem at a concrete input. -/
theorem c5_non_accel_rejected_witness :
    (SfdroidSensors.poll__activate ⟨true, true, true⟩ false 1 true).ret = -1 ∧
    (SfdroidSensors.poll__activate ⟨true, true, true⟩ false 1 true).sendCalls = 0 ∧
    (SfdroidSensors.poll__activate ⟨true, true, true⟩ false 1 true).connectAttempted
        = !false ∧
    (SfdroidSensors.poll__setDelay ⟨true, true, true⟩ false 0 1 5).1.ret = -1 ∧
    (SfdroidSensors.poll__setDelay ⟨true, true, true⟩ false 0 1 5).1.sendCalls = 0 ∧
    (SfdroidSensors.poll__setDelay ⟨true, true, true⟩ false 0 1 5).2 = 5 :=
  c5_non_accel_rejected ⟨true, true, true⟩ false 1 true 0 5 (by decide)

/-- C6 counterexample: an iteration that announces a 10-byte payload but
receives only 2 bytes (a short read) leaves the channel open and connected —
the short payload is processed as a normal (here unparseable) reply instead
of being treated as a hard channel failure. -/
theorem c6_short_read_keeps_channel_counterexample :
    (SfdroidSensors.poll_model (fun _ => (none : Option Unit))
      (fun _ => ⟨true, true, some 10, some [65, 66]⟩) false true 1).connected
      = true := by
  rfl

/-- C6 (amended): only a negative recv result is a hard channel failure in
the framed receive path of `poll__poll`; a non-negative payload read shorter
than the announced prefix is terminated at its actual length and processed
as a normal reply (a parse failure merely ends the poll early, with the
channel left open). -/
theorem c6_short_read_processed_normally {α : Type}
    (parse : List Nat → Option α) (env : Nat → SfdroidSensors.IterEnv)
    (connectOk fd0 : Bool) (count : Int) (b : Nat) (l : List Nat)
    (hup : (fd0 || connectOk) = true) (hpos : 0 < count)
    (hs : (env 0).sendSyncOk = true) (hc : (env 0).sendCmdOk = true)
    (hb : (env 0).prefixByte = some b) (hl : (env 0).payload = some l)
    (hshort : l.length < b) (hparse : parse l = none) :
    SfdroidSensors.poll_model parse env connectOk fd0 count = ⟨0, [], true⟩ := by
  obtain ⟨n, hn⟩ : ∃ n, count.toNat = n + 1 := ⟨count.toNat - 1, by omega⟩
  have hstep : SfdroidSensors.iterStep parse (env 0) = SfdroidSensors.StepRes.stop := by
    simp [SfdroidSensors.iterStep, hs, hc, hb, hl, hparse]
  simp [SfdroidSensors.poll_model, hup, hn, SfdroidSensors.pollLoop, hstep]

/-- Witness for C6's amended theorem at a concrete input. -/
theorem c6_short_read_processed_normally_witness :
    SfdroidSensors.poll_model (fun _ => (none : Option Unit))
      (fun _ => ⟨true, true, some 10, some [65, 66]⟩) true true 2 = ⟨0, [], true⟩ :=
  c6_short_read_processed_normally (fun _ => (none : Option Unit))
    (fun _ => ⟨true, true, some 10, some [65, 66]⟩) true true 2 10 [65, 66]
    rfl (by decide) rfl rfl rfl rfl (by decide) rfl

/-- C7: when `fb_post` is called with the relay channel disconnected and the
reconnect attempt fails, no send is attempted, the connect failure is
reported via the diagnostic log, the channel stays disconnected, and the
call returns (benignly, with 0) — matching the spec's logging-only failure
surface. -/
theorem c7_reconnect_failure_no_send (env : Sharebuffer.RelayEnv)
    (hconn : env.connectOk = false) :
    (Sharebuffer.fb_post false env).sendAttempted = false ∧
    Sharebuffer.RelayLog.connectError ∈ (Sharebuffer.fb_post false env).logs ∧
    (Sharebuffer.fb_post false env).connected = false ∧
    (Sharebuffer.fb_post false env).ret = 0 := by
  simp [Sharebuffer.fb_post, hconn]

/-- Witness for C7 at a concrete input. -/
theorem c7_reconnect_failure_no_send_witness :
    (Sharebuffer.fb_post false ⟨false, true, none⟩).sendAttempted = false ∧
    Sharebuffer.RelayLog.connectError ∈
      (Sharebuffer.fb_post false ⟨false, true, none⟩).logs ∧
    (Sharebuffer.fb_post false ⟨false, true, none⟩).connected = false ∧
    (Sharebuffer.fb_post false ⟨false, true, none⟩).ret = 0 :=
  c7_reconnect_failure_no_send ⟨false, true, none⟩ rfl

/-- C8: `poll(maxCount)` with maxCount ≥ 0 returns at most `maxCount` event
records, its return value is always exactly the number of records produced
(so a truncated sequence is a valid, non-error result), and when the first
`k` iterations succeed and iteration `k` receives an unparseable reply, the
call terminates early at `k` records with the channel left open. -/
theorem c8_poll_truncation {α : Type} (parse : List Nat → Option α)
    (env : Nat → SfdroidSensors.IterEnv) (connectOk fd0 : Bool) (count : Int)
    (k : Nat) (hcount : 0 ≤ count) :
    (SfdroidSensors.poll_model parse env connectOk fd0 count).events.length ≤
      count.toNat ∧
    (SfdroidSensors.poll_model parse env connectOk fd0 count).ret =
      ((SfdroidSensors.poll_model parse env connectOk fd0 count).events.length : Int) ∧
    ((fd0 || connectOk) = true → k < count.toNat →
      (∀ j, j < k → SfdroidSensors.iterOk parse (env j) = true) →
      SfdroidSensors.iterParseFail parse (env k) = true →
      (SfdroidSensors.poll_model parse env connectOk fd0 count).ret = (k : Int) ∧
      (SfdroidSensors.poll_model parse env connectOk fd0 count).events.length = k ∧
      (SfdroidSensors.poll_model parse env connectOk fd0 count).connected = true) := by
  by_cases hup : (fd0 || connectOk) = true
  · simp only [SfdroidSensors.poll_model, hup, if_true]
    have hmain := pollLoop_ret_eq_len parse env count hcount count.toNat 0 [] rfl
      (by omega)
    refine ⟨hmain.2, hmain.1, ?_⟩
    intro _ hk hall hpf
    exact pollLoop_early_stop parse env count k count.toNat 0 [] rfl (by omega)
      (Nat.zero_le k) hk (fun j hj1 hj2 => hall j hj2) hpf
  · have hup2 : (fd0 || connectOk) = false := by
      cases h : (fd0 || connectOk)
      · rfl
      · exact absurd h hup
    simp only [SfdroidSensors.poll_model, hup2, Bool.false_eq_true, if_false]
    exact ⟨by simp, by simp, fun h => h.elim⟩

/-- Witness for C8 at a concrete input. -/
theorem c8_poll_truncation_witness :
    (SfdroidSensors.poll_model (fun _ => (some () : Option Unit))
      (fun _ => ⟨true, true, some 3, some [97]⟩) true false 2).events.length ≤
      (2 : Int).toNat :=
  (c8_poll_truncation (fun _ => (some () : Option Unit))
    (fun _ => ⟨true, true, some 3, some [97]⟩) true false 2 0 (by decide)).1

/-- C9: if the sensor channel is not connected at call start and the
connection attempt also fails, `poll` returns 0 with an empty event sequence
(and the channel left disconnected), for every maxCount. -/
theorem c9_poll_disconnected_empty {α : Type} (parse : List Nat → Option α)
    (env : Nat → SfdroidSensors.IterEnv) (count : Int) :
    SfdroidSensors.poll_model parse env false false count = ⟨0, [], false⟩ :=
  rfl

/-- C10: at the failing input — length-prefix byte 255 — the signed-char
interpretation makes `poll__poll` request `2^64 - 1` bytes from `recv`, far
more than the 256-byte reply buffer, so the requested payload size (and the
subsequent terminator write at the received length) does **not** stay within
bounds; prefix values ≤ 127 behave as announced. -/
theorem c10_prefix_255_overflows :
    SfdroidSensors.recvRequestBytes 255 = 2 ^ 64 - 1 ∧
    SfdroidSensors.REPLY_BUF_SIZE < SfdroidSensors.recvRequestBytes 255 ∧
    SfdroidSensors.recvRequestBytes 127 = 127 := by
  decide
